import Mathlib

/-!
# HomeLibrary: verified model of the membership / permission core

A shallow embedding of the service layer of the HomeLibrary catalog
application (`app/services/library_service.py`, `app/services/book_service.py`,
`app/services/book_status_service.py`) over explicit relational state,
together with theorems settling the specified properties of the
membership, permission-resolution, book-update and read-status logic.

Conventions of the embedding:
* The relational store is a `DB` value: one list per table, plus the
  SQLite AUTOINCREMENT counters for the `library` and `book` tables
  (`sqlite_autoincrement = True` in the models, so primary keys are
  monotonically increasing and never reused).
* `db.scalar(select(..).where(p))` on a table is `List.find?` with the
  row predicate `p`; an ORM in-place mutation of the row found by such a
  query is `updateFirst`; `db.delete(row)` is `removeFirst`.
* Service functions return their Python result paired with the state of
  the store after the call.  Python `None` results become `Option`;
  raised `HTTPException`s (and raw exceptions escaping the service)
  become `Except.error` with an `Err` tag.
* Storage-layer failures of a `commit`/`flush` are modelled by explicit
  Boolean oracle parameters on the functions whose error handling the
  spec describes (`create_library`, `create_book`): `true` means the
  write attempt raises at that point.
-/

namespace HomeLibrary

/-- `LibraryRole`, from `app/models/enum.py` (`owner` / `member` / `guest`). -/
inductive LibraryRole where
  | owner
  | member
  | guest
deriving DecidableEq, Repr

/-- A row of the `library` table (`app/models/library.py`): unique `name`,
optional unique `slug`, optional password hash (`none` means the library is
public), owner reference. -/
structure Library where
  id : Nat
  name : String
  slug : Option String
  password_hash : Option String
  owner_id : Nat
deriving DecidableEq, Repr

/-- A row of the `user_library` membership table (`app/models/user_library.py`).
The surrogate primary key is irrelevant to every property below and omitted. -/
structure UserLibrary where
  user_id : Nat
  library_id : Nat
  role : LibraryRole
deriving DecidableEq, Repr

/-- A row of the `book` table (`app/models/book.py`).  `user_id` is the
creator of the book. -/
structure Book where
  id : Nat
  author : String
  title : String
  description : Option String
  genre : Option String
  color : Option String
  lib_address : String
  room : Option String
  shelf : Option String
  slug : String
  library_id : Nat
  user_id : Nat
deriving DecidableEq, Repr

/-- A row of the `user_book_status` table (`app/models/user_book_status.py`).
`read_status` is a plain string column (`not_read` / `reading` / `read`). -/
structure UserBookStatus where
  user_id : Nat
  book_id : Nat
  read_status : String
deriving DecidableEq, Repr

/-- The relational store: one list per table, plus the AUTOINCREMENT
counters for `library.id` and `book.id`. -/
structure DB where
  libraries : List Library
  memberships : List UserLibrary
  books : List Book
  statuses : List UserBookStatus
  next_lib_id : Nat
  next_book_id : Nat
deriving DecidableEq, Repr

/-- The empty store; AUTOINCREMENT ids start at 1. -/
def DB.empty : DB :=
  { libraries := [], memberships := [], books := [], statuses := [],
    next_lib_id := 1, next_book_id := 1 }

/-- Outcomes a service call can surface to the request layer.  The first
five are the `HTTPException` status codes the services raise; `serverError`
stands for a generic uncaught exception (surfaced as HTTP 500), and
`integrityError` stands for a raw `sqlalchemy.exc.IntegrityError` escaping
the service untranslated. -/
inductive Err where
  | badRequest
  | unauthorized
  | forbidden
  | notFound
  | conflict
  | serverError
  | integrityError
deriving DecidableEq, Repr

/-- Mutate the first element satisfying `p` (an ORM in-place update of the
row returned by `db.scalar(select(..).where(p))`). -/
def updateFirst (p : α → Bool) (f : α → α) : List α → List α
  | [] => []
  | x :: xs => if p x then f x :: xs else x :: updateFirst p f xs

/-- Delete the first element satisfying `p` (`db.delete` of the row returned
by `db.scalar(select(..).where(p))`). -/
def removeFirst (p : α → Bool) : List α → List α
  | [] => []
  | x :: xs => if p x then xs else x :: removeFirst p xs

theorem length_updateFirst (p : α → Bool) (f : α → α) :
    ∀ l : List α, (updateFirst p f l).length = l.length := by
  intro l
  induction l with
  | nil => rfl
  | cons x xs ih =>
    by_cases h : p x <;> simp [updateFirst, h, ih]

theorem find?_updateFirst (p : α → Bool) (f : α → α)
    (hf : ∀ x, p (f x) = p x) :
    ∀ l : List α, (updateFirst p f l).find? p = (l.find? p).map f := by
  intro l
  induction l with
  | nil => rfl
  | cons x xs ih =>
    by_cases h : p x
    · simp [updateFirst, h, List.find?_cons_of_pos, hf, h]
    · simp [updateFirst, h, List.find?_cons_of_neg, ih]

theorem mem_of_mem_removeFirst (p : α → Bool) :
    ∀ {l : List α} {x : α}, x ∈ removeFirst p l → x ∈ l := by
  intro l
  induction l with
  | nil => intro x h; simp [removeFirst] at h
  | cons y ys ih =>
    intro x h
    by_cases hy : p y
    · simp only [removeFirst, if_pos hy] at h
      exact List.mem_cons_of_mem _ h
    · simp only [removeFirst, if_neg hy, List.mem_cons] at h
      rcases h with h | h
      · exact h ▸ List.mem_cons_self _ _
      · exact List.mem_cons_of_mem _ (ih h)

theorem removeFirst_sublist (p : α → Bool) :
    ∀ l : List α, (removeFirst p l).Sublist l := by
  intro l
  induction l with
  | nil => simp [removeFirst]
  | cons y ys ih =>
    by_cases hy : p y
    · simp [removeFirst, hy, List.sublist_cons_self]
    · simpa [removeFirst, hy] using List.Sublist.cons₂ y ih

theorem mem_removeFirst_of_neg (p : α → Bool) :
    ∀ {l : List α} {x : α}, x ∈ l → p x = false → x ∈ removeFirst p l := by
  intro l
  induction l with
  | nil => intro x h _; simp at h
  | cons y ys ih =>
    intro x h hx
    rcases List.mem_cons.mp h with h | h
    · subst h
      simp [removeFirst, hx]
    · by_cases hy : p y
      · simp only [removeFirst, if_pos hy]; exact h
      · simp only [removeFirst, if_neg hy, List.mem_cons]
        exact Or.inr (ih h hx)

theorem eq_of_pairwise_key {κ : α → Nat} :
    ∀ {l : List α}, l.Pairwise (fun a b => κ a ≠ κ b) →
      ∀ {a b : α}, a ∈ l → b ∈ l → κ a = κ b → a = b := by
  intro l
  induction l with
  | nil => intro _ a b ha; simp at ha
  | cons x xs ih =>
    intro hp a b ha hb hab
    have hx := List.pairwise_cons.mp hp
    rcases List.mem_cons.mp ha with ha1 | ha1 <;>
      rcases List.mem_cons.mp hb with hb1 | hb1
    · rw [ha1, hb1]
    · exact absurd (ha1 ▸ hab) (hx.1 b hb1)
    · exact absurd (hb1 ▸ hab.symm) (hx.1 a ha1)
    · exact ih hx.2 ha1 hb1 hab

theorem countP_le_one_of_pairwise {p : α → Bool} :
    ∀ {l : List α}, l.Pairwise (fun a b => ¬(p a = true ∧ p b = true)) →
      l.countP p ≤ 1 := by
  intro l
  induction l with
  | nil => intro _; simp
  | cons x xs ih =>
    intro hp
    have hx := List.pairwise_cons.mp hp
    by_cases h : p x
    · have hz : xs.countP p = 0 := by
        apply List.countP_eq_zero.mpr
        intro a ha hpa
        exact hx.1 a ha ⟨h, hpa⟩
      simp [List.countP_cons, h, hz]
    · simpa [List.countP_cons, h] using ih hx.2

/-- Modelled from the spec: the credential store (`app/utils/hashing.py` is
not among the provided sources).  The spec treats it as an external primitive
that "hashes and verifies passwords"; we model hashing as an injective tagging
of the password. -/
def hash_password (p : String) : String := "hashed:" ++ p

/-- Modelled from the spec: password verification succeeds exactly when the
supplied password hashes to the stored hash. -/
def verify_password (p h : String) : Bool := hash_password p == h

/-- `is_library_member` (`app/services/library_service.py`): the single
lookup of the membership row for `(user_id, library_id)`;
`db.scalar` returns the first matching row or `None`. -/
def is_library_member (db : DB) (user_id library_id : Nat) : Option UserLibrary :=
  db.memberships.find? fun m => m.user_id == user_id && m.library_id == library_id

/-- `user_status` (`app/services/book_status_service.py`): the read-status
row for `(user_id, book_id)`, if any. -/
def user_status (db : DB) (user_id book_id : Nat) : Option UserBookStatus :=
  db.statuses.find? fun s => s.user_id == user_id && s.book_id == book_id

/-- `get_user_book_status` (`app/services/book_status_service.py`): the
stored status string, defaulting to `"not_read"` when no row exists. -/
def get_user_book_status (db : DB) (user_id book_id : Nat) : String :=
  match user_status db user_id book_id with
  | some s => s.read_status
  | none => "not_read"

/-- `update_user_book_status` (`app/services/book_status_service.py`):
upsert of the `(user_id, book_id)` read-status row — mutate the existing
row in place if present, otherwise insert a new row; then commit. -/
def update_user_book_status (db : DB) (user_id book_id : Nat)
    (new_status : String) : DB :=
  match user_status db user_id book_id with
  | some _ =>
      { db with
        statuses :=
          updateFirst (fun s => s.user_id == user_id && s.book_id == book_id)
            (fun s => { s with read_status := new_status }) db.statuses }
  | none =>
      { db with
        statuses :=
          db.statuses ++ [{ user_id := user_id, book_id := book_id,
                            read_status := new_status }] }

/-- `create_library` (`app/services/library_service.py`).

The Python body is: reject an empty name with 400; build the row (hashing
the password when one is supplied, `make_slug(name, unique=True)` supplying
the slug — modelled here by the `slug` parameter, since the suffix comes
from the wall clock); `db.add(lib); db.flush()` — at the flush the INSERT
hits the unique constraints on `library.name` and `library.slug`, raising
`IntegrityError` on a collision; add the owner membership row with role
`owner`; commit (the `commit_fails` oracle models a generic storage failure
at this point).

Error handling as written in the source: the handler chain is
`except Exception as e: await db.rollback(); raise` FOLLOWED by
`except IntegrityError: ... HTTPException(409)`.  Since `IntegrityError`
is a subclass of `Exception`, the first clause catches it and re-raises it
raw — the 409 translation is unreachable.  A name/slug collision therefore
surfaces as `Err.integrityError`, and a generic commit failure as the raw
exception (`Err.serverError`), both after rollback. -/
def create_library (db : DB) (name : String) (password : Option String)
    (owner_id : Nat) (slug : String) (commit_fails : Bool) :
    Except Err Library × DB :=
  if name = "" then (Except.error Err.badRequest, db)
  else
    let hashed : Option String :=
      match password with
      | some p => if p == "" then none else some (hash_password p)
      | none => none
    let lib : Library :=
      { id := db.next_lib_id, name := name, slug := some slug,
        password_hash := hashed, owner_id := owner_id }
    if db.libraries.any (fun l => l.name == name || l.slug == some slug) then
      (Except.error Err.integrityError, db)
    else if commit_fails then (Except.error Err.serverError, db)
    else
      (Except.ok lib,
       { db with
         libraries := db.libraries ++ [lib],
         memberships :=
           db.memberships ++ [{ user_id := owner_id, library_id := lib.id,
                                role := LibraryRole.owner }],
         next_lib_id := db.next_lib_id + 1 })

/-- The identifier accepted by `join_library`: the Python argument
`lib_id_or_name: str | int`. -/
def LibIdent := Sum Nat String

/-- Identifier resolution at the head of `join_library`
(`app/services/library_service.py`): an integer, or a string of digits,
is first looked up as `Library.id == int(x) | Library.name == x`; on a
miss (and for every non-numeric string) the library is looked up by name.
For a genuine `int` argument the `Library.name` comparison is against a
non-string and never matches a row. -/
def resolve_library (db : DB) : LibIdent → Option Library
  | Sum.inl n => db.libraries.find? fun l => l.id == n
  | Sum.inr s =>
    if s.isNat then
      match db.libraries.find?
          (fun l => l.id == (s.toNat?.getD 0) || l.name == s) with
      | some lib => some lib
      | none => db.libraries.find? fun l => l.name == s
    else
      db.libraries.find? fun l => l.name == s

/-- `join_library` (`app/services/library_service.py`): resolve the
identifier (404 on a miss); if the library has a password hash, verify the
supplied password (401 on failure); then, if a membership row for
`(user_id, lib.id)` already exists, return the library unchanged,
otherwise insert a membership row with role `member` and commit. -/
def join_library (db : DB) (ident : LibIdent) (password : String)
    (user_id : Nat) : Except Err Library × DB :=
  match resolve_library db ident with
  | none => (Except.error Err.notFound, db)
  | some lib =>
    let pass_ok :=
      match lib.password_hash with
      | some h => verify_password password h
      | none => true
    if pass_ok then
      match db.memberships.find?
          (fun m => m.user_id == user_id && m.library_id == lib.id) with
      | some _ => (Except.ok lib, db)
      | none =>
        (Except.ok lib,
         { db with
           memberships :=
             db.memberships ++ [{ user_id := user_id, library_id := lib.id,
                                  role := LibraryRole.member }] })
    else (Except.error Err.unauthorized, db)

/-- `leave_library` (`app/services/library_service.py`): non-success (the
Python `(False, message)` results, the message strings are omitted here)
when the library does not exist, when the caller is its owner, or when the
caller holds no membership row; otherwise delete the caller's membership
row and commit. -/
def leave_library (db : DB) (library_id user_id : Nat) : Bool × DB :=
  match db.libraries.find? (fun l => l.id == library_id) with
  | none => (false, db)
  | some lib =>
    if lib.owner_id == user_id then (false, db)
    else
      match is_library_member db user_id library_id with
      | none => (false, db)
      | some _ =>
        (true,
         { db with
           memberships :=
             removeFirst
               (fun m => m.user_id == user_id && m.library_id == library_id)
               db.memberships })

/-- `delete_library` (`app/services/library_service.py`): permitted only to
the owner or an admin; deleting the library row cascades
(`cascade="all, delete-orphan"` on `Library.books` and
`Library.users_assoc`) to the library's books and membership rows. -/
def delete_library (db : DB) (library_id user_id : Nat) (is_admin : Bool) :
    Bool × DB :=
  match db.libraries.find? (fun l => l.id == library_id) with
  | none => (false, db)
  | some lib =>
    if lib.owner_id != user_id && !is_admin then (false, db)
    else
      (true,
       { db with
         libraries := db.libraries.filter (fun l => l.id != library_id),
         books := db.books.filter (fun b => b.library_id != library_id),
         memberships :=
           db.memberships.filter (fun m => m.library_id != library_id) })

/-- The payload of `BookCreate` / `BookUpdate` (`app/schemas/book.py`):
required author/title/shelving address, optional description, genre, color,
room and shelf, and the submitted read status (a `ReadStatus` value, i.e.
one of the strings `not_read` / `reading` / `read`). -/
structure BookUpdate where
  author : String
  title : String
  description : Option String
  genre : Option String
  color : Option String
  lib_address : String
  room : Option String
  shelf : Option String
  read_status : String
deriving DecidableEq, Repr

/-- The capability set computed by `get_book_permission`
(`app/services/book_service.py`), one field per key of the returned dict. -/
structure Permissions where
  can_edit_full : Bool
  can_edit_status : Bool
  can_edit_description : Bool
  can_delete : Bool
  role : LibraryRole
  is_book_creator : Bool
deriving DecidableEq, Repr

/-- `get_book_permission` (`app/services/book_service.py`): one query
selecting `Book.user_id, UserLibrary.role` with an inner join of `Book` to
`Library` on `Book.library_id == Library.id` and an outer join to
`UserLibrary` on `(UserLibrary.library_id == Library.id) &
(UserLibrary.user_id == user_id)`, filtered by `Book.id == book_id`.
No row (book missing, or its library missing from the inner join) is 404;
a row with a NULL role (outer join found no membership) is 403; otherwise
`is_owner = role == OWNER`, `is_book_creator = book.user_id == user_id`,
`is_member_plus = role in [OWNER, MEMBER]`, and the capability dict is
returned. -/
def get_book_permission (db : DB) (user_id book_id : Nat) :
    Except Err Permissions :=
  match db.books.find? (fun b => b.id == book_id) with
  | none => Except.error Err.notFound
  | some book =>
    match db.libraries.find? (fun l => l.id == book.library_id) with
    | none => Except.error Err.notFound
    | some lib =>
      match is_library_member db user_id lib.id with
      | none => Except.error Err.forbidden
      | some m =>
        let is_owner := m.role == LibraryRole.owner
        let is_book_creator := book.user_id == user_id
        let is_member_plus :=
          m.role == LibraryRole.owner || m.role == LibraryRole.member
        Except.ok
          { can_edit_full := is_owner || is_book_creator,
            can_edit_status := is_member_plus,
            can_edit_description := is_member_plus,
            can_delete := is_owner || is_book_creator,
            role := m.role,
            is_book_creator := is_book_creator }

/-- The per-row effect of `update_book_with_permissions`
(`app/services/book_service.py`) on the book found by the query: the
description is assigned when one is submitted (`if data.description is not
None`), and the protected fields (author, title, genre, color, shelving)
are assigned only when `can_edit_full` holds. -/
def apply_book_update (data : BookUpdate) (has_full_access : Bool)
    (b : Book) : Book :=
  let b1 :=
    match data.description with
    | some d => { b with description := some d }
    | none => b
  if has_full_access then
    { b1 with
      author := data.author, title := data.title, genre := data.genre,
      color := data.color, lib_address := data.lib_address,
      room := data.room, shelf := data.shelf }
  else b1

/-- `update_book_with_permissions` (`app/services/book_service.py`):
returns `None` (no change) when no permission dict was supplied, when
`can_edit_status` is absent/false, or when the book does not exist;
otherwise mutates the book row per `apply_book_update`, upserts the
caller's read-status row, commits, and returns `True`. -/
def update_book_with_permissions (db : DB) (user_id book_id : Nat)
    (data : BookUpdate) (permissions : Option Permissions) :
    Option Bool × DB :=
  match permissions with
  | none => (none, db)
  | some perms =>
    if perms.can_edit_status then
      match db.books.find? (fun b => b.id == book_id) with
      | none => (none, db)
      | some _ =>
        let db1 :=
          { db with
            books :=
              updateFirst (fun b => b.id == book_id)
                (apply_book_update data perms.can_edit_full) db.books }
        (some true, update_user_book_status db1 user_id book_id
          data.read_status)
    else (none, db)

/-- `create_book` (`app/services/book_service.py`).

Steps as written in the source: 404 when the library does not exist; 403
when the caller is not a library member; build the book row (the slug from
`make_slug(f"{author}-{title}", unique=True)` is the `slug` parameter) and
`db.add(book); await db.commit()` — the FIRST commit.  At it the INSERT
hits the unique constraint on `book.slug` (`IntegrityError`, caught by the
correctly-ordered handler here and translated to 409 after rollback), and
a generic storage failure (`commit1_fails`) is caught by
`except Exception` (500 after rollback).  Only after this commit does the
function call `update_user_book_status` for the creator's initial status,
which issues its own, SECOND commit; a failure there (`commit2_fails`) is
caught by `except Exception`, which rolls back the in-flight (second)
transaction only — the book row committed by the first transaction is
retained. -/
def create_book (db : DB) (data : BookUpdate) (user_id library_id : Nat)
    (slug : String) (commit1_fails commit2_fails : Bool) :
    Except Err Book × DB :=
  match db.libraries.find? (fun l => l.id == library_id) with
  | none => (Except.error Err.notFound, db)
  | some _ =>
    match is_library_member db user_id library_id with
    | none => (Except.error Err.forbidden, db)
    | some _ =>
      let book : Book :=
        { id := db.next_book_id, author := data.author, title := data.title,
          description := data.description, genre := data.genre,
          color := data.color, lib_address := data.lib_address,
          room := data.room, shelf := data.shelf, slug := slug,
          library_id := library_id, user_id := user_id }
      if db.books.any (fun b => b.slug == slug) then
        (Except.error Err.conflict, db)
      else if commit1_fails then (Except.error Err.serverError, db)
      else
        let db1 :=
          { db with books := db.books ++ [book],
                    next_book_id := db.next_book_id + 1 }
        if commit2_fails then (Except.error Err.serverError, db1)
        else
          (Except.ok book,
           update_user_book_status db1 user_id book.id data.read_status)

/-- States of the store reachable from the empty database by the library
lifecycle operations (create, join, leave, delete), with arbitrary
arguments and arbitrary storage-failure outcomes. -/
inductive Reachable : DB → Prop where
  | init : Reachable DB.empty
  | create_lib (name : String) (pw : Option String) (owner : Nat)
      (slug : String) (cf : Bool) {db : DB} :
      Reachable db → Reachable (create_library db name pw owner slug cf).2
  | join (ident : LibIdent) (pw : String) (u : Nat) {db : DB} :
      Reachable db → Reachable (join_library db ident pw u).2
  | leave (lid u : Nat) {db : DB} :
      Reachable db → Reachable (leave_library db lid u).2
  | delete (lid u : Nat) (adm : Bool) {db : DB} :
      Reachable db → Reachable (delete_library db lid u adm).2

/-- The inductive invariant of the library tables: primary keys of
`library` are below the AUTOINCREMENT counter and pairwise distinct,
membership rows reference keys below the counter, the `(user_id,
library_id)` pair of a membership row is unique, and every library has its
owner enrolled with role `owner`. -/
structure Inv (db : DB) : Prop where
  lib_bound : ∀ l ∈ db.libraries, l.id < db.next_lib_id
  lib_uniq : db.libraries.Pairwise (fun a b => a.id ≠ b.id)
  mem_bound : ∀ m ∈ db.memberships, m.library_id < db.next_lib_id
  mem_uniq : db.memberships.Pairwise
    (fun a b => ¬(a.user_id = b.user_id ∧ a.library_id = b.library_id))
  owner_mem : ∀ l ∈ db.libraries, ∃ m ∈ db.memberships,
    m.user_id = l.owner_id ∧ m.library_id = l.id ∧ m.role = LibraryRole.owner

theorem inv_empty : Inv DB.empty := by
  constructor <;> simp [DB.empty]

theorem Inv.extend_lib {db : DB} (hv : Inv db) (lib : Library)
    (m : UserLibrary) (hid : lib.id = db.next_lib_id)
    (hmu : m.user_id = lib.owner_id) (hml : m.library_id = lib.id)
    (hmr : m.role = LibraryRole.owner) :
    Inv { db with libraries := db.libraries ++ [lib],
                  memberships := db.memberships ++ [m],
                  next_lib_id := db.next_lib_id + 1 } := by
  constructor
  · intro l hl
    rcases List.mem_append.mp hl with h | h
    · exact Nat.lt_succ_of_lt (hv.lib_bound l h)
    · simp only [List.mem_singleton] at h
      rw [h, hid]
      exact Nat.lt_succ_self _
  · refine List.pairwise_append.mpr ⟨hv.lib_uniq, by simp, ?_⟩
    intro a ha b hb
    simp only [List.mem_singleton] at hb
    subst hb
    have := hv.lib_bound a ha
    omega
  · intro x hx
    rcases List.mem_append.mp hx with h | h
    · exact Nat.lt_succ_of_lt (hv.mem_bound x h)
    · simp only [List.mem_singleton] at h
      rw [h, hml, hid]
      exact Nat.lt_succ_self _
  · refine List.pairwise_append.mpr ⟨hv.mem_uniq, by simp, ?_⟩
    intro a ha b hb
    simp only [List.mem_singleton] at hb
    subst hb
    intro hcon
    have := hv.mem_bound a ha
    omega
  · intro l hl
    rcases List.mem_append.mp hl with h | h
    · obtain ⟨x, hx, hx1, hx2, hx3⟩ := hv.owner_mem l h
      exact ⟨x, List.mem_append_left _ hx, hx1, hx2, hx3⟩
    · simp only [List.mem_singleton] at h
      subst h
      exact ⟨m, List.mem_append_right _ (List.mem_singleton_self m),
        hmu, hml, hmr⟩

theorem Inv.extend_member {db : DB} (hv : Inv db) (u : Nat) (lib : Library)
    (hlib : lib ∈ db.libraries)
    (hnone : db.memberships.find?
      (fun m => m.user_id == u && m.library_id == lib.id) = none) :
    Inv { db with memberships :=
      db.memberships ++ [{ user_id := u, library_id := lib.id,
                           role := LibraryRole.member }] } := by
  have habs : ∀ m ∈ db.memberships, ¬(m.user_id = u ∧ m.library_id = lib.id) := by
    intro m hm hcon
    have := List.find?_eq_none.mp hnone m hm
    simp only [Bool.and_eq_true, beq_iff_eq] at this
    exact this ⟨hcon.1, hcon.2⟩
  constructor
  · exact hv.lib_bound
  · exact hv.lib_uniq
  · intro x hx
    rcases List.mem_append.mp hx with h | h
    · exact hv.mem_bound x h
    · simp only [List.mem_singleton] at h
      subst h
      exact hv.lib_bound lib hlib
  · refine List.pairwise_append.mpr ⟨hv.mem_uniq, by simp, ?_⟩
    intro a ha b hb
    simp only [List.mem_singleton] at hb
    subst hb
    intro hcon
    exact habs a ha ⟨hcon.1, hcon.2⟩
  · intro l hl
    obtain ⟨x, hx, hx1, hx2, hx3⟩ := hv.owner_mem l hl
    exact ⟨x, List.mem_append_left _ hx, hx1, hx2, hx3⟩

theorem Inv.remove_member {db : DB} (hv : Inv db) (u lid : Nat)
    (lib : Library)
    (hfind : db.libraries.find? (fun l => l.id == lid) = some lib)
    (hown : lib.owner_id ≠ u) :
    Inv { db with
          memberships := removeFirst
            (fun m => m.user_id == u && m.library_id == lid)
            db.memberships } := by
  have hlibmem : lib ∈ db.libraries := List.mem_of_find?_eq_some hfind
  have hlibid : lib.id = lid := by
    have := List.find?_some hfind
    simpa [beq_iff_eq] using this
  constructor
  · exact hv.lib_bound
  · exact hv.lib_uniq
  · intro x hx
    exact hv.mem_bound x (mem_of_mem_removeFirst _ hx)
  · exact hv.mem_uniq.sublist (removeFirst_sublist _ _)
  · intro l hl
    obtain ⟨x, hx, hx1, hx2, hx3⟩ := hv.owner_mem l hl
    refine ⟨x, mem_removeFirst_of_neg _ hx ?_, hx1, hx2, hx3⟩
    by_contra hpos
    simp only [Bool.not_eq_false, Bool.and_eq_true, beq_iff_eq] at hpos
    have hlid : l.id = lid := hx2 ▸ hpos.2
    have : l = lib :=
      eq_of_pairwise_key (κ := Library.id) hv.lib_uniq hl hlibmem
        (by rw [hlid, hlibid])
    apply hown
    rw [← this, ← hx1, hpos.1]

theorem Inv.delete_lib {db : DB} (hv : Inv db) (lid : Nat) :
    Inv { db with
          libraries := db.libraries.filter (fun l => l.id != lid),
          books := db.books.filter (fun b => b.library_id != lid),
          memberships :=
            db.memberships.filter (fun m => m.library_id != lid) } := by
  constructor
  · intro l hl
    exact hv.lib_bound l (List.mem_of_mem_filter hl)
  · exact hv.lib_uniq.filter _
  · intro x hx
    exact hv.mem_bound x (List.mem_of_mem_filter hx)
  · exact hv.mem_uniq.filter _
  · intro l hl
    have hl2 := List.mem_filter.mp hl
    obtain ⟨x, hx, hx1, hx2, hx3⟩ := hv.owner_mem l hl2.1
    refine ⟨x, List.mem_filter.mpr ⟨hx, ?_⟩, hx1, hx2, hx3⟩
    rw [hx2]
    exact hl2.2

theorem resolve_library_mem {db : DB} {ident : LibIdent} {lib : Library}
    (h : resolve_library db ident = some lib) : lib ∈ db.libraries := by
  cases ident with
  | inl n => exact List.mem_of_find?_eq_some h
  | inr s =>
    simp only [resolve_library] at h
    by_cases hs : s.isNat
    · rw [if_pos hs] at h
      cases hfind : db.libraries.find?
          (fun l => l.id == (s.toNat?.getD 0) || l.name == s) with
      | some x =>
        rw [hfind] at h
        cases h
        exact List.mem_of_find?_eq_some hfind
      | none =>
        rw [hfind] at h
        exact List.mem_of_find?_eq_some h
    · rw [if_neg hs] at h
      exact List.mem_of_find?_eq_some h

theorem inv_create_library (db : DB) (name : String) (pw : Option String)
    (owner : Nat) (slug : String) (cf : Bool) (hv : Inv db) :
    Inv (create_library db name pw owner slug cf).2 := by
  unfold create_library
  by_cases h1 : name = ""
  · simpa [h1] using hv
  · by_cases h2 : db.libraries.any (fun l => l.name == name || l.slug == some slug)
    · simpa [h1, h2] using hv
    · by_cases h3 : cf
      · simpa [h1, h2, h3] using hv
      · simp only [h1, h2, h3, if_false, if_neg, ite_false]
        exact hv.extend_lib _ _ rfl rfl rfl rfl

theorem inv_join_library (db : DB) (ident : LibIdent) (pw : String)
    (u : Nat) (hv : Inv db) : Inv (join_library db ident pw u).2 := by
  unfold join_library
  cases hres : resolve_library db ident with
  | none => exact hv
  | some lib =>
    simp only []
    by_cases hpass : (match lib.password_hash with
      | some h => verify_password pw h
      | none => true) = true
    · rw [if_pos hpass]
      cases hfind : db.memberships.find?
          (fun m => m.user_id == u && m.library_id == lib.id) with
      | some x => exact hv
      | none => exact hv.extend_member u lib (resolve_library_mem hres) hfind
    · rw [if_neg hpass]
      exact hv

theorem inv_leave_library (db : DB) (lid u : Nat) (hv : Inv db) :
    Inv (leave_library db lid u).2 := by
  unfold leave_library
  cases hfind : db.libraries.find? (fun l => l.id == lid) with
  | none => exact hv
  | some lib =>
    simp only []
    by_cases hown : lib.owner_id == u
    · rw [if_pos hown]
      exact hv
    · rw [if_neg hown]
      cases hmem : is_library_member db u lid with
      | none => exact hv
      | some m =>
        exact hv.remove_member u lid lib hfind (by simpa using hown)

theorem inv_delete_library (db : DB) (lid u : Nat) (adm : Bool)
    (hv : Inv db) : Inv (delete_library db lid u adm).2 := by
  unfold delete_library
  cases hfind : db.libraries.find? (fun l => l.id == lid) with
  | none => exact hv
  | some lib =>
    simp only []
    by_cases hperm : lib.owner_id != u && !adm
    · rw [if_pos hperm]
      exact hv
    · rw [if_neg hperm]
      exact hv.delete_lib lid

theorem inv_of_reachable {db : DB} (h : Reachable db) : Inv db := by
  induction h with
  | init => exact inv_empty
  | create_lib name pw owner slug cf _ ih =>
    exact inv_create_library _ name pw owner slug cf ih
  | join ident pw u _ ih => exact inv_join_library _ ident pw u ih
  | leave lid u _ ih => exact inv_leave_library _ lid u ih
  | delete lid u adm _ ih => exact inv_delete_library _ lid u adm ih

theorem find?_append_of_none (p : α → Bool) {l : List α}
    (h : l.find? p = none) (l2 : List α) :
    (l ++ l2).find? p = l2.find? p := by
  induction l with
  | nil => rfl
  | cons x xs ih =>
    rw [List.find?_cons] at h
    cases hx : p x with
    | true => rw [hx] at h; exact absurd h (by simp)
    | false =>
      rw [hx] at h
      rw [List.cons_append, List.find?_cons, hx]
      exact ih h

theorem books_update_user_book_status (db : DB) (u b : Nat) (s : String) :
    (update_user_book_status db u b s).books = db.books := by
  unfold update_user_book_status
  cases user_status db u b <;> rfl

theorem user_status_update_self (db : DB) (u b : Nat) (s : String) :
    user_status (update_user_book_status db u b s) u b =
      some { user_id := u, book_id := b, read_status := s } := by
  cases hfind : user_status db u b with
  | some r =>
    unfold user_status at hfind
    have hr := List.find?_some hfind
    simp only [Bool.and_eq_true, beq_iff_eq] at hr
    simp only [update_user_book_status, user_status, hfind]
    rw [find?_updateFirst
        (fun (x : UserBookStatus) => x.user_id == u && x.book_id == b)
        (fun (x : UserBookStatus) => { x with read_status := s })
        (fun x => rfl), hfind]
    cases r
    simp_all
  | none =>
    unfold user_status at hfind
    simp only [update_user_book_status, user_status, hfind]
    rw [find?_append_of_none _ hfind]
    simp

theorem get_user_book_status_update (db : DB) (u b : Nat) (s : String) :
    get_user_book_status (update_user_book_status db u b s) u b = s := by
  unfold get_user_book_status
  rw [user_status_update_self]

theorem statuses_length_update_of_none (db : DB) (u b : Nat) (s : String)
    (h : user_status db u b = none) :
    (update_user_book_status db u b s).statuses.length =
      db.statuses.length + 1 := by
  unfold update_user_book_status
  rw [h]
  simp

theorem statuses_length_update_of_some (db : DB) (u b : Nat) (s : String)
    (r : UserBookStatus) (h : user_status db u b = some r) :
    (update_user_book_status db u b s).statuses.length =
      db.statuses.length := by
  unfold update_user_book_status
  rw [h]
  exact length_updateFirst _ _ _

/-! ### Sample data used by the concrete witnesses below -/

/-- A public library owned by user 1. -/
def libHome : Library :=
  { id := 1, name := "home", slug := some "home", password_hash := none,
    owner_id := 1 }

/-- A private library owned by user 1 (its password is `secret`). -/
def libPriv : Library :=
  { id := 2, name := "priv", slug := some "priv",
    password_hash := some (hash_password "secret"), owner_id := 1 }

/-- A book in `libHome`, created by user 2. -/
def bookDune : Book :=
  { id := 1, author := "Herbert", title := "Dune", description := none,
    genre := none, color := none, lib_address := "institut.13", room := none,
    shelf := none, slug := "herbert-dune-1", library_id := 1, user_id := 2 }

/-- A store with both libraries, user 1 owning both, user 2 a plain member
of `libHome`, one book and no read-status rows. -/
def dbSample : DB :=
  { libraries := [libHome, libPriv],
    memberships :=
      [{ user_id := 1, library_id := 1, role := LibraryRole.owner },
       { user_id := 2, library_id := 1, role := LibraryRole.member },
       { user_id := 1, library_id := 2, role := LibraryRole.owner }],
    books := [bookDune],
    statuses := [],
    next_lib_id := 3, next_book_id := 2 }

/-- A sample update payload. -/
def dataDune : BookUpdate :=
  { author := "Frank Herbert", title := "Dune Messiah",
    description := some "notes", genre := some "science_fiction",
    color := none, lib_address := "institut.13", room := some "saloon",
    shelf := some "3", read_status := "reading" }

/-! ### The specified properties -/

/-- C1: for every user `u` and book such that the book and its library
exist and `u` has a membership row with some role in the book's library,
the permission resolver returns `can_edit_full = (role == owner ∨ creator
= u)`, `can_edit_status = can_edit_description = (role ∈ {owner, member})`
and `can_delete = (role == owner ∨ creator = u)`. -/
theorem book_permission_capability_map (db : DB) (u bid : Nat)
    (book : Book) (lib : Library) (m : UserLibrary)
    (hb : db.books.find? (fun b => b.id == bid) = some book)
    (hl : db.libraries.find? (fun l => l.id == book.library_id) = some lib)
    (hm : is_library_member db u lib.id = some m) :
    get_book_permission db u bid = Except.ok
      { can_edit_full := (m.role == LibraryRole.owner || book.user_id == u),
        can_edit_status :=
          (m.role == LibraryRole.owner || m.role == LibraryRole.member),
        can_edit_description :=
          (m.role == LibraryRole.owner || m.role == LibraryRole.member),
        can_delete := (m.role == LibraryRole.owner || book.user_id == u),
        role := m.role,
        is_book_creator := (book.user_id == u) } := by
  simp only [get_book_permission, hb, hl, hm]

theorem book_permission_capability_map_witness :
    get_book_permission dbSample 2 1 = Except.ok
      { can_edit_full := true, can_edit_status := true,
        can_edit_description := true, can_delete := true,
        role := LibraryRole.member, is_book_creator := true } :=
  book_permission_capability_map dbSample 2 1 bookDune libHome
    { user_id := 2, library_id := 1, role := LibraryRole.member }
    rfl rfl rfl

/-- C2: resolving book permissions fails with NotFound when no book with
the given id exists, and fails with Forbidden when the book and its
library exist but the user has no membership row in that library; in both
cases an error, not a capability set, is returned. -/
theorem book_permission_failure_paths (db : DB) (u bid : Nat) :
    (db.books.find? (fun b => b.id == bid) = none →
      get_book_permission db u bid = Except.error Err.notFound) ∧
    (∀ book, db.books.find? (fun b => b.id == bid) = some book →
      ∀ lib, db.libraries.find? (fun l => l.id == book.library_id) = some lib →
      is_library_member db u lib.id = none →
      get_book_permission db u bid = Except.error Err.forbidden) := by
  constructor
  · intro h
    simp only [get_book_permission, h]
  · intro book hb lib hl hm
    simp only [get_book_permission, hb, hl, hm]

theorem book_permission_failure_paths_witness :
    get_book_permission dbSample 1 99 = Except.error Err.notFound ∧
    get_book_permission dbSample 3 1 = Except.error Err.forbidden :=
  ⟨(book_permission_failure_paths dbSample 1 99).1 rfl,
   (book_permission_failure_paths dbSample 3 1).2 bookDune rfl libHome
     rfl rfl⟩

/-- C5: a `create_library` call whose name collides with an existing
library does NOT fail with Conflict: because the `except Exception` clause
precedes the `except IntegrityError` clause in the source, the
storage-layer `IntegrityError` is re-raised raw (after rollback) and the
409 translation is dead code.  Evaluated at a concrete colliding input:
the result is the raw integrity error, not Conflict, and the store is
unchanged. -/
theorem create_library_conflict_translation_dead :
    (create_library dbSample "home" none 2 "home-2" false).1 =
        Except.error Err.integrityError ∧
    (create_library dbSample "home" none 2 "home-2" false).1 ≠
        Except.error Err.conflict ∧
    (create_library dbSample "home" none 2 "home-2" false).2 = dbSample := by
  refine ⟨rfl, ?_, rfl⟩
  intro h
  rw [show (create_library dbSample "home" none 2 "home-2" false).1 =
      Except.error Err.integrityError from rfl] at h
  exact absurd (Except.error.inj h) (by simp)

/-- C9: membership uniqueness is an invariant: in every store reachable by
the library operations (create, join, leave, delete) there is at most one
membership row per `(user, library)` pair. -/
theorem membership_pair_unique (db : DB) (hdb : Reachable db) (u l : Nat) :
    db.memberships.countP
      (fun m => m.user_id == u && m.library_id == l) ≤ 1 := by
  refine countP_le_one_of_pairwise
    (List.Pairwise.imp ?_ (inv_of_reachable hdb).mem_uniq)
  intro a b hab hcon
  simp only [Bool.and_eq_true, beq_iff_eq] at hcon
  exact hab ⟨hcon.1.1.trans hcon.2.1.symm, hcon.1.2.trans hcon.2.2.symm⟩

/-- The store after user 1 creates `home` and user 2 joins it: a concrete
reachable state. -/
def dbReach : DB :=
  (join_library (create_library DB.empty "home" none 1 "home" false).2
    (Sum.inl 1) "" 2).2

theorem membership_pair_unique_witness :
    dbReach.memberships.countP
      (fun m => m.user_id == 2 && m.library_id == 1) ≤ 1 :=
  membership_pair_unique dbReach
    (Reachable.join (Sum.inl 1) "" 2
      (Reachable.create_lib "home" none 1 "home" false Reachable.init)) 2 1

/-- C3: a book update submitted with a permission set in which
`can_edit_full` is false but `can_edit_status` is true succeeds (it is not
rejected): the protected fields (author, title, genre, color, shelving)
are unchanged — the updated row differs from the old one only in its
description — while the submitted description and the caller's read
status are applied. -/
theorem partial_update_preserves_protected_fields (db : DB) (u bid : Nat)
    (data : BookUpdate) (perms : Permissions) (book : Book) (d : String)
    (hfull : perms.can_edit_full = false)
    (hstat : perms.can_edit_status = true)
    (hb : db.books.find? (fun b => b.id == bid) = some book)
    (hd : data.description = some d) :
    (update_book_with_permissions db u bid data (some perms)).1 =
        some true ∧
    (update_book_with_permissions db u bid data (some perms)).2.books.find?
        (fun b => b.id == bid) = some { book with description := some d } ∧
    get_user_book_status
        (update_book_with_permissions db u bid data (some perms)).2 u bid =
      data.read_status := by
  have happ : apply_book_update data perms.can_edit_full =
      fun b => { b with description := some d } := by
    funext b
    rw [apply_book_update, hfull, hd]
    simp
  refine ⟨?_, ?_, ?_⟩
  · simp only [update_book_with_permissions, hstat, hb, if_true]
  · simp only [update_book_with_permissions, hstat, hb, if_true,
      books_update_user_book_status, happ]
    rw [find?_updateFirst (fun (b : Book) => b.id == bid)
        (fun (b : Book) => { b with description := some d })
        (fun x => rfl), hb]
    rfl
  · simp only [update_book_with_permissions, hstat, hb, if_true]
    exact get_user_book_status_update _ u bid data.read_status

theorem partial_update_preserves_protected_fields_witness :
    (update_book_with_permissions dbSample 2 1 dataDune
      (some { can_edit_full := false, can_edit_status := true,
              can_edit_description := true, can_delete := false,
              role := LibraryRole.member, is_book_creator := false })).1 =
        some true ∧
    (update_book_with_permissions dbSample 2 1 dataDune
      (some { can_edit_full := false, can_edit_status := true,
              can_edit_description := true, can_delete := false,
              role := LibraryRole.member,
              is_book_creator := false })).2.books.find?
        (fun b => b.id == 1) =
      some { bookDune with description := some "notes" } ∧
    get_user_book_status
        (update_book_with_permissions dbSample 2 1 dataDune
          (some { can_edit_full := false, can_edit_status := true,
                  can_edit_description := true, can_delete := false,
                  role := LibraryRole.member,
                  is_book_creator := false })).2 2 1 =
      dataDune.read_status :=
  partial_update_preserves_protected_fields dbSample 2 1 dataDune
    { can_edit_full := false, can_edit_status := true,
      can_edit_description := true, can_delete := false,
      role := LibraryRole.member, is_book_creator := false }
    bookDune "notes" rfl rfl rfl rfl

/-- C6: for a non-empty name, a successful `create_library` leaves the new
library row and a membership row `(owner, new library, role owner)` in the
store, inserted by the same commit (any failure leaves the store entirely
unchanged — no partial insert); and in every reachable store each library
has its owner enrolled with role `owner`, with no separate join step. -/
theorem create_library_inserts_owner_membership (db : DB) (name : String)
    (pw : Option String) (owner : Nat) (slug : String) (cf : Bool)
    (hname : name ≠ "") :
    (∀ lib, (create_library db name pw owner slug cf).1 = Except.ok lib →
       lib ∈ (create_library db name pw owner slug cf).2.libraries ∧
       ({ user_id := owner, library_id := lib.id,
          role := LibraryRole.owner } : UserLibrary) ∈
         (create_library db name pw owner slug cf).2.memberships) ∧
    (∀ e, (create_library db name pw owner slug cf).1 = Except.error e →
       (create_library db name pw owner slug cf).2 = db) ∧
    (∀ db2, Reachable db2 → ∀ l ∈ db2.libraries,
       ∃ m ∈ db2.memberships, m.user_id = l.owner_id ∧
         m.library_id = l.id ∧ m.role = LibraryRole.owner) := by
  refine ⟨?_, ?_, fun db2 h => (inv_of_reachable h).owner_mem⟩
  · intro lib hok
    unfold create_library at hok ⊢
    rw [if_neg hname] at hok ⊢
    by_cases h2 : db.libraries.any
        (fun l => l.name == name || l.slug == some slug)
    · rw [if_pos h2] at hok
      exact absurd hok (by simp)
    · rw [if_neg h2] at hok ⊢
      by_cases h3 : cf
      · rw [if_pos h3] at hok
        exact absurd hok (by simp)
      · rw [if_neg h3] at hok ⊢
        have hlib := Except.ok.inj hok
        subst hlib
        constructor
        · exact List.mem_append_right _ (List.mem_singleton_self _)
        · exact List.mem_append_right _ (List.mem_singleton_self _)
  · intro e herr
    unfold create_library at herr ⊢
    rw [if_neg hname] at herr ⊢
    by_cases h2 : db.libraries.any
        (fun l => l.name == name || l.slug == some slug)
    · rw [if_pos h2]
    · rw [if_neg h2] at herr ⊢
      by_cases h3 : cf
      · rw [if_pos h3]
      · rw [if_neg h3] at herr
        exact absurd herr (by simp)

theorem create_library_inserts_owner_membership_witness :
    ({ user_id := 1, library_id := 1,
       role := LibraryRole.owner } : UserLibrary) ∈
      (create_library DB.empty "home" none 1 "home" false).2.memberships :=
  ((create_library_inserts_owner_membership DB.empty "home" none 1 "home"
      false (by simp)).1
    { id := 1, name := "home", slug := some "home", password_hash := none,
      owner_id := 1 } rfl).2

/-- C7: joining is idempotent for existing members — when the identifier
resolves to library `lib`, the password gate passes (the library is public
or the supplied password verifies), and the user already holds a
membership row in `lib`, `join_library` returns the library without error
and leaves the store (in particular the membership rows) unchanged. -/
theorem join_library_idempotent_for_members (db : DB) (ident : LibIdent)
    (pw : String) (u : Nat) (lib : Library)
    (hres : resolve_library db ident = some lib)
    (hgate : (match lib.password_hash with
              | some h => verify_password pw h
              | none => true) = true)
    (hmem : (db.memberships.find?
      (fun m => m.user_id == u && m.library_id == lib.id)).isSome = true) :
    join_library db ident pw u = (Except.ok lib, db) := by
  rcases Option.isSome_iff_exists.mp hmem with ⟨m, hm⟩
  simp only [join_library, hres, hgate, hm, if_true]

theorem join_library_idempotent_for_members_witness :
    join_library dbSample (Sum.inl 1) "" 2 = (Except.ok libHome, dbSample) :=
  join_library_idempotent_for_members dbSample (Sum.inl 1) "" 2 libHome
    rfl rfl rfl

/-- C10 (implicit): in `join_library` the password check precedes the
existing-membership check, so a user who is already a member of a private
library but supplies a wrong (or missing) password gets Unauthorized
instead of the idempotent return, and the store is unchanged. -/
theorem join_library_password_gate_precedes_membership (db : DB)
    (ident : LibIdent) (pw : String) (u : Nat) (lib : Library) (h : String)
    (hres : resolve_library db ident = some lib)
    (hpriv : lib.password_hash = some h)
    (hwrong : verify_password pw h = false)
    (_hmem : (db.memberships.find?
      (fun m => m.user_id == u && m.library_id == lib.id)).isSome = true) :
    join_library db ident pw u = (Except.error Err.unauthorized, db) := by
  simp only [join_library, hres, hpriv, hwrong]
  rfl

theorem join_library_password_gate_precedes_membership_witness :
    join_library dbSample (Sum.inl 2) "wrong" 1 =
      (Except.error Err.unauthorized, dbSample) :=
  join_library_password_gate_precedes_membership dbSample (Sum.inl 2)
    "wrong" 1 libPriv (hash_password "secret") rfl rfl rfl rfl

/-- C4, counterexample to the claimed single transaction boundary of
`create_book`: at a concrete store with the library and membership in
place, a storage failure at the read-status commit (the second commit the
source issues) surfaces as an error, yet the book row committed by the
first commit is retained and no read-status row exists for it — an
orphaned book row. -/
theorem create_book_not_atomic_cex :
    (create_book dbSample dataDune 1 1 "dune-messiah-1" false true).1 =
        Except.error Err.serverError ∧
    (create_book dbSample dataDune 1 1 "dune-messiah-1" false
        true).2.books.length = dbSample.books.length + 1 ∧
    user_status
        (create_book dbSample dataDune 1 1 "dune-messiah-1" false true).2
        1 2 = none :=
  ⟨rfl, rfl, rfl⟩

/-- C4 as amended: `create_book` issues two commits, not one.  A failure
at the first (book) commit is rolled back and leaves the store unchanged,
but a failure at the read-status step rolls back only the second,
in-flight transaction: the call errors while the already-committed book
row (with the fresh id, this creator and this library) is retained and no
read-status row for it exists. -/
theorem create_book_two_transaction_boundaries (db : DB)
    (data : BookUpdate) (u lid : Nat) (slug : String) (lib : Library)
    (m : UserLibrary)
    (hlib : db.libraries.find? (fun l => l.id == lid) = some lib)
    (hmem : is_library_member db u lid = some m)
    (hslug : db.books.any (fun b => b.slug == slug) = false)
    (hfresh : ∀ s ∈ db.statuses,
      ¬(s.user_id = u ∧ s.book_id = db.next_book_id)) :
    (create_book db data u lid slug true false).2 = db ∧
    (create_book db data u lid slug false true).1 =
        Except.error Err.serverError ∧
    (∃ bk ∈ (create_book db data u lid slug false true).2.books,
       bk.id = db.next_book_id ∧ bk.user_id = u ∧ bk.library_id = lid) ∧
    (∀ s ∈ (create_book db data u lid slug false true).2.statuses,
       ¬(s.user_id = u ∧ s.book_id = db.next_book_id)) := by
  refine ⟨?_, ?_, ?_, ?_⟩
  · simp only [create_book, hlib, hmem, hslug, Bool.false_eq_true,
      if_false, if_true]
  · simp only [create_book, hlib, hmem, hslug, Bool.false_eq_true,
      if_false, if_true]
  · simp only [create_book, hlib, hmem, hslug, Bool.false_eq_true,
      if_false, if_true]
    refine ⟨_, List.mem_append_right _ (List.mem_singleton_self _),
      rfl, rfl, rfl⟩
  · simp only [create_book, hlib, hmem, hslug, Bool.false_eq_true,
      if_false, if_true]
    exact hfresh

theorem create_book_two_transaction_boundaries_witness :
    (create_book dbSample dataDune 2 1 "dune-messiah-2" true false).2 =
        dbSample ∧
    (create_book dbSample dataDune 2 1 "dune-messiah-2" false true).1 =
        Except.error Err.serverError ∧
    (∃ bk ∈ (create_book dbSample dataDune 2 1 "dune-messiah-2" false
        true).2.books,
       bk.id = dbSample.next_book_id ∧ bk.user_id = 2 ∧
       bk.library_id = 1) ∧
    (∀ s ∈ (create_book dbSample dataDune 2 1 "dune-messiah-2" false
        true).2.statuses,
       ¬(s.user_id = 2 ∧ s.book_id = dbSample.next_book_id)) :=
  create_book_two_transaction_boundaries dbSample dataDune 2 1
    "dune-messiah-2" libHome
    { user_id := 2, library_id := 1, role := LibraryRole.member }
    rfl rfl rfl (by simp [dbSample])

/-- C8: for a `(user, book)` pair with no read-status row,
`get_user_book_status` returns `not_read`; after an update to `s1` the
same call returns `s1`; a second update to a different `s2` returns `s2`
and modifies the existing row rather than appending one — the first
update grows the table by exactly one row and the second leaves its size
unchanged. -/
theorem read_status_default_and_upsert (db : DB) (u b : Nat)
    (s1 s2 : String) (hnone : user_status db u b = none)
    (_hne : s1 ≠ s2) :
    get_user_book_status db u b = "not_read" ∧
    get_user_book_status (update_user_book_status db u b s1) u b = s1 ∧
    get_user_book_status
        (update_user_book_status (update_user_book_status db u b s1) u b
          s2) u b = s2 ∧
    (update_user_book_status db u b s1).statuses.length =
        db.statuses.length + 1 ∧
    (update_user_book_status (update_user_book_status db u b s1) u b
        s2).statuses.length =
      (update_user_book_status db u b s1).statuses.length := by
  refine ⟨?_, get_user_book_status_update db u b s1,
    get_user_book_status_update _ u b s2,
    statuses_length_update_of_none db u b s1 hnone, ?_⟩
  · unfold get_user_book_status
    rw [hnone]
  · exact statuses_length_update_of_some _ u b s2 _
      (user_status_update_self db u b s1)

theorem read_status_default_and_upsert_witness :
    get_user_book_status dbSample 1 1 = "not_read" ∧
    get_user_book_status
        (update_user_book_status dbSample 1 1 "reading") 1 1 = "reading" ∧
    get_user_book_status
        (update_user_book_status
          (update_user_book_status dbSample 1 1 "reading") 1 1 "read")
        1 1 = "read" ∧
    (update_user_book_status dbSample 1 1 "reading").statuses.length =
        dbSample.statuses.length + 1 ∧
    (update_user_book_status
        (update_user_book_status dbSample 1 1 "reading") 1 1
        "read").statuses.length =
      (update_user_book_status dbSample 1 1 "reading").statuses.length :=
  read_status_default_and_upsert dbSample 1 1 "reading" "read" rfl
    (by simp)

end HomeLibrary
